import Mathlib

/-!
# Verification of the air-guitar gesture core

A shallow embedding of the gesture-interpretation core of the
air-guitar-4d repository:

* `HandTracking.detectStrummingMotion`, `HandTracking.detectChordFormation`,
  `HandTracking.calculateDistance`, `HandTracking.calculateHandOrientation`
  from src/js/modules/hand-tracking.js;
* `MotionAnalysis.processHandData` (with its chord, fret and strum sections)
  from src/js/modules/motion-analysis.js.

JavaScript numbers are modelled as `Option ℝ`, with `none` standing for NaN;
infinities are not modelled (no computation in the verified fragment produces
one from numeric input, and no claim depends on them).  Arithmetic propagates
`none`, and comparisons with `none` are false, matching how NaN behaves in
JavaScript comparisons and branches.  Logging, canvas drawing and the
visual-feedback bookkeeping (for example `lastStrumDirection` and its display
timeout) are side effects on the UI only and are not modelled; callback
invocation is modelled as an event record carrying the argument that would be
passed to the registered callback.
-/

namespace AirGuitar

noncomputable section
open Classical

/-- A JavaScript number: `some x` is the real value `x`, `none` is NaN. -/
abbrev JSNum := Option ℝ

/-- JavaScript addition: NaN propagates. -/
def jsAdd : JSNum → JSNum → JSNum
  | some x, some y => some (x + y)
  | _, _ => none

/-- JavaScript subtraction: NaN propagates. -/
def jsSub : JSNum → JSNum → JSNum
  | some x, some y => some (x - y)
  | _, _ => none

/-- JavaScript multiplication: NaN propagates. -/
def jsMul : JSNum → JSNum → JSNum
  | some x, some y => some (x * y)
  | _, _ => none

/-- JavaScript division.  `0 / 0` is NaN.  A nonzero numerator over a zero
denominator is an infinity in JavaScript; it is conservatively mapped to the
non-numeric value as well (no code path in the verified fragment divides a
nonzero number by zero). -/
def jsDiv : JSNum → JSNum → JSNum
  | some x, some y => if y = 0 then none else some (x / y)
  | _, _ => none

/-- JavaScript unary minus: NaN propagates. -/
def jsNeg : JSNum → JSNum
  | some x => some (-x)
  | none => none

/-- JavaScript `Math.abs`: NaN propagates. -/
def jsAbs : JSNum → JSNum
  | some x => some |x|
  | none => none

/-- JavaScript `Math.sqrt`: NaN on NaN or negative input. -/
def jsSqrt : JSNum → JSNum
  | some x => if x < 0 then none else some (Real.sqrt x)
  | none => none

/-- JavaScript strict less-than: false whenever either side is NaN. -/
def jsLt (a b : JSNum) : Prop := ∃ x y, a = some x ∧ b = some y ∧ x < y

@[simp] theorem jsAdd_some_some (x y : ℝ) : jsAdd (some x) (some y) = some (x + y) := rfl

@[simp] theorem jsSub_some_some (x y : ℝ) : jsSub (some x) (some y) = some (x - y) := rfl

@[simp] theorem jsMul_some_some (x y : ℝ) : jsMul (some x) (some y) = some (x * y) := rfl

@[simp] theorem jsNeg_none : jsNeg none = none := rfl

@[simp] theorem jsAbs_some (x : ℝ) : jsAbs (some x) = some |x| := rfl

@[simp] theorem jsAdd_none_left (b : JSNum) : jsAdd none b = none := rfl

@[simp] theorem jsSub_none_left (b : JSNum) : jsSub none b = none := rfl

@[simp] theorem jsSub_none_right (a : JSNum) : jsSub a none = none := by
  cases a <;> rfl

@[simp] theorem jsMul_none_left (b : JSNum) : jsMul none b = none := rfl

@[simp] theorem jsMul_none_right (a : JSNum) : jsMul a none = none := by
  cases a <;> rfl

@[simp] theorem jsAdd_none_right (a : JSNum) : jsAdd a none = none := by
  cases a <;> rfl

@[simp] theorem jsAbs_none : jsAbs none = none := rfl

@[simp] theorem jsSqrt_none : jsSqrt none = none := rfl

@[simp] theorem jsDiv_none_left (b : JSNum) : jsDiv none b = none := rfl

@[simp] theorem jsDiv_none_right (a : JSNum) : jsDiv a none = none := by
  cases a <;> rfl

@[simp] theorem jsDiv_some_zero (x : ℝ) : jsDiv (some x) (some 0) = none := by
  simp [jsDiv]

theorem jsDiv_some_some_ne (x y : ℝ) (hy : y ≠ 0) :
    jsDiv (some x) (some y) = some (x / y) := by
  simp [jsDiv, hy]

theorem jsSqrt_some_nonneg (x : ℝ) (hx : 0 ≤ x) :
    jsSqrt (some x) = some (Real.sqrt x) := by
  simp [jsSqrt, not_lt.mpr hx]

@[simp] theorem jsLt_some_some (x y : ℝ) : jsLt (some x) (some y) ↔ x < y := by
  constructor
  · rintro ⟨a, b, ha, hb, hab⟩
    cases ha; cases hb; exact hab
  · intro h; exact ⟨x, y, rfl, rfl, h⟩

@[simp] theorem jsLt_none_left (b : JSNum) : ¬ jsLt none b := by
  rintro ⟨x, y, hx, -, -⟩; cases hx

@[simp] theorem jsLt_none_right (a : JSNum) : ¬ jsLt a none := by
  rintro ⟨x, y, -, hy, -⟩; cases hy

/-- `degreesToRadians` from hand-tracking.js. -/
def degreesToRadians (degrees : ℝ) : ℝ := degrees * (Real.pi / 180)

@[simp] theorem degreesToRadians_zero : degreesToRadians 0 = 0 := by
  simp [degreesToRadians]

/-- A chord classification record: a name and a confidence value. -/
structure Chord where
  name : String
  confidence : ℝ
  deriving DecidableEq

/-- Direction of a strum signal. -/
inductive StrumDirection where
  | down
  | up
  deriving DecidableEq

namespace HandTracking

/-- A 2D landmark point as produced by the hand-pose detector.  The `z` field
is read by the code only through `z || 0`, so `none` stands both for a missing
`z` (undefined) and for a NaN `z` — both are falsy in JavaScript and are
replaced by `0` there. -/
structure Pt where
  x : JSNum
  y : JSNum
  z : JSNum

/-- `z || 0` from the point copies in `calculateDistance`: a falsy `z`
(undefined, NaN, or `0`) becomes `0`. -/
def zOrZero : JSNum → JSNum
  | some v => some v
  | none => some 0

/-- A detected hand.  MediaPipe always reports all 21 `keypoints`, so they are
modelled as a total function from landmark index to point; the optional
`keypoints3D` array holds the metric 3D landmarks, modelled in the numeric
(non-NaN) domain, and its entries are checked for presence by the code. -/
structure Pt3 where
  x : ℝ
  y : ℝ
  z : ℝ

structure Hand where
  keypoints : ℕ → Pt
  keypoints3D : Option (ℕ → Option Pt3)

/-- The FINGER_LANDMARKS constants from hand-tracking.js. -/
def WRIST : ℕ := 0

def THUMB_TIP : ℕ := 4

def INDEX_TIP : ℕ := 8

def MIDDLE_TIP : ℕ := 12

def RING_TIP : ℕ := 16

def PINKY_TIP : ℕ := 20

def INDEX_BASE : ℕ := 5

def PINKY_BASE : ℕ := 17

/-- `calculateDistance` from hand-tracking.js: distance between two points
with the plane-angle adjustment.  A missing point yields `0`; otherwise both
points are copied (with `z || 0`), the y-coordinates are adjusted by
`y += x * tan(radians(guitarPlaneAngle - 90))`, and the Euclidean distance of
the copies is returned. -/
def calculateDistance (guitarPlaneAngle : ℝ) (point1 point2 : Option Pt) : JSNum :=
  match point1, point2 with
  | some q1, some q2 =>
      let internalAngle := guitarPlaneAngle - 90
      let angleRadians := degreesToRadians internalAngle
      let t : ℝ := Real.tan angleRadians
      let p1x := q1.x
      let p1y := jsAdd q1.y (jsMul q1.x (some t))
      let p1z := zOrZero q1.z
      let p2x := q2.x
      let p2y := jsAdd q2.y (jsMul q2.x (some t))
      let p2z := zOrZero q2.z
      jsSqrt (jsAdd (jsAdd (jsMul (jsSub p2x p1x) (jsSub p2x p1x))
                           (jsMul (jsSub p2y p1y) (jsSub p2y p1y)))
                    (jsMul (jsSub p2z p1z) (jsSub p2z p1z)))
  | _, _ => some 0

/-- A strum signal as emitted by `detectStrummingMotion`. -/
structure StrumInfo where
  direction : StrumDirection
  intensity : JSNum
  position : Pt

/-- The STRUM_THRESHOLD constant of `detectStrummingMotion` (reduced from 25
in the source to make strumming more sensitive). -/
def STRUM_THRESHOLD : ℝ := 12

/-- `detectStrummingMotion` from hand-tracking.js, as a function of the
strumming-role hand in the current and in the previous frame (the code reads
`this.hands.left` and `this.lastFrameHands.left`; in the mirrored view the
left-labelled hand is the physical right hand).  If either hand is missing the
result is `null`; otherwise the vertical wrist movement is compared against
the threshold, and a signal with direction, intensity `|yMovement| / 50` and
the wrist position is emitted on success. -/
def detectStrummingMotion (strummingHand prevStrummingHand : Option Hand) :
    Option StrumInfo :=
  match strummingHand, prevStrummingHand with
  | some h, some ph =>
      let wrist := h.keypoints WRIST
      let prevWrist := ph.keypoints WRIST
      let yMovement := jsSub wrist.y prevWrist.y
      if jsLt (some STRUM_THRESHOLD) (jsAbs yMovement) then
        some { direction := if jsLt (some 0) yMovement then .down else .up
               intensity := jsDiv (jsAbs yMovement) (some 50)
               position := wrist }
      else none
  | _, _ => none

/-- `detectChordFormation` from hand-tracking.js, as a function of the
fretting-role hand (the code reads `this.hands.right`; in the mirrored view
the right-labelled hand is the physical left hand).  Fingertip-to-thumb
distances are computed with `calculateDistance` (so under the plane-angle
adjustment) and matched against a fixed decision table; `pinkyToThumb` is
computed by the source but not used by any rule. -/
def detectChordFormation (guitarPlaneAngle : ℝ) (chordHand : Option Hand) :
    Option Chord :=
  match chordHand with
  | none => none
  | some h =>
      let landmarks := h.keypoints
      let thumbTip := landmarks THUMB_TIP
      let indexTip := landmarks INDEX_TIP
      let middleTip := landmarks MIDDLE_TIP
      let ringTip := landmarks RING_TIP
      let indexToThumb := calculateDistance guitarPlaneAngle (some indexTip) (some thumbTip)
      let middleToThumb := calculateDistance guitarPlaneAngle (some middleTip) (some thumbTip)
      let ringToThumb := calculateDistance guitarPlaneAngle (some ringTip) (some thumbTip)
      let chord : Chord :=
        if jsLt indexToThumb (some 50) ∧ jsLt (some 80) middleToThumb ∧
            jsLt (some 80) ringToThumb then
          { name := "C Major", confidence := 0.7 }
        else if jsLt (some 80) indexToThumb ∧ jsLt middleToThumb (some 50) ∧
            jsLt (some 80) ringToThumb then
          { name := "G Major", confidence := 0.6 }
        else if jsLt (some 80) indexToThumb ∧ jsLt (some 80) middleToThumb ∧
            jsLt ringToThumb (some 50) then
          { name := "E Minor", confidence := 0.65 }
        else
          { name := "Unknown", confidence := 0.3 }
      some chord

/-- Hand orientation angles in degrees; the components are JavaScript numbers
because the normalization step can produce NaN. -/
structure Orientation where
  pitch : JSNum
  roll : JSNum
  yaw : JSNum
  deriving DecidableEq

/-- The neutral orientation returned by the guard clauses of
`calculateHandOrientation`. -/
def neutralOrientation : Orientation :=
  { pitch := some 0, roll := some 0, yaw := some 0 }

/-- `Math.atan2` on numeric arguments (piecewise arctangent); its concrete
values on numeric input are irrelevant to the claims, only NaN propagation
matters. -/
def atan2 (y x : ℝ) : ℝ :=
  if 0 < x then Real.arctan (y / x)
  else if x < 0 then
    (if 0 ≤ y then Real.arctan (y / x) + Real.pi else Real.arctan (y / x) - Real.pi)
  else
    (if 0 < y then Real.pi / 2 else if y < 0 then -(Real.pi / 2) else 0)

/-- `Math.atan2` on JavaScript numbers: NaN propagates. -/
def jsAtan2 : JSNum → JSNum → JSNum
  | some y, some x => some (atan2 y x)
  | _, _ => none

@[simp] theorem jsAtan2_none_left (b : JSNum) : jsAtan2 none b = none := rfl

@[simp] theorem jsAtan2_none_right (a : JSNum) : jsAtan2 a none = none := by
  cases a <;> rfl

/-- The palm-plane normal computed by `calculateHandOrientation`: the cross
product of the wrist-to-index-base and wrist-to-pinky-base vectors, taken
after adjusting each y-coordinate by `y += x * t` for the plane-angle tangent
`t`. -/
def palmNormal (t : ℝ) (wrist indexBase pinkyBase : Pt3) : Pt3 :=
  let aW : Pt3 := { x := wrist.x, y := wrist.y + wrist.x * t, z := wrist.z }
  let aI : Pt3 := { x := indexBase.x, y := indexBase.y + indexBase.x * t, z := indexBase.z }
  let aP : Pt3 := { x := pinkyBase.x, y := pinkyBase.y + pinkyBase.x * t, z := pinkyBase.z }
  let wti : Pt3 := { x := aI.x - aW.x, y := aI.y - aW.y, z := aI.z - aW.z }
  let wtp : Pt3 := { x := aP.x - aW.x, y := aP.y - aW.y, z := aP.z - aW.z }
  { x := wti.y * wtp.z - wti.z * wtp.y
    y := wti.z * wtp.x - wti.x * wtp.z
    z := wti.x * wtp.y - wti.y * wtp.x }

/-- `calculateHandOrientation` from hand-tracking.js.  Missing hand, missing
`keypoints3D` or missing key landmarks return the neutral orientation.
Otherwise the palm normal is computed from the plane-angle-adjusted wrist,
index-base and pinky-base landmarks, normalized by its magnitude (a division
that JavaScript performs even when the magnitude is zero, yielding NaN), and
pitch, roll and yaw are derived with `atan2` and converted to degrees. -/
def calculateHandOrientation (guitarPlaneAngle : ℝ) (hand : Option Hand) :
    Orientation :=
  match hand with
  | none => neutralOrientation
  | some h =>
    match h.keypoints3D with
    | none => neutralOrientation
    | some landmarks =>
      match landmarks WRIST, landmarks INDEX_BASE, landmarks PINKY_BASE with
      | some wrist, some indexBase, some pinkyBase =>
          let internalAngle := guitarPlaneAngle - 90
          let angleRadians := degreesToRadians internalAngle
          let t : ℝ := Real.tan angleRadians
          let aW : Pt3 := { x := wrist.x, y := wrist.y + wrist.x * t, z := wrist.z }
          let aI : Pt3 := { x := indexBase.x, y := indexBase.y + indexBase.x * t, z := indexBase.z }
          let wti : Pt3 := { x := aI.x - aW.x, y := aI.y - aW.y, z := aI.z - aW.z }
          let normal := palmNormal t wrist indexBase pinkyBase
          let magnitude : ℝ :=
            Real.sqrt (normal.x * normal.x + normal.y * normal.y + normal.z * normal.z)
          let nx := jsDiv (some normal.x) (some magnitude)
          let ny := jsDiv (some normal.y) (some magnitude)
          let nz := jsDiv (some normal.z) (some magnitude)
          let pitch := jsAtan2 ny nz
          let roll := jsAtan2 (jsNeg nx) (jsSqrt (jsAdd (jsMul ny ny) (jsMul nz nz)))
          let yaw : ℝ := atan2 wti.x wti.y
          { pitch := jsMul pitch (some (180 / Real.pi))
            roll := jsMul roll (some (180 / Real.pi))
            yaw := jsMul (some yaw) (some (180 / Real.pi)) }
      | _, _, _ => neutralOrientation

end HandTracking

namespace MotionAnalysis

/-- A 2D position as used by motion-analysis.js (wrist keypoints and smoothed
positions).  The aggregator claims concern the numeric domain, so coordinates
are modelled as real numbers. -/
structure Point where
  x : ℝ
  y : ℝ

/-- A hand as seen by the aggregator: a total array of 2D keypoints (index 0
is the wrist). -/
structure Hand where
  keypoints : ℕ → Point

/-- The handData record passed to `processHandData`: the detected left and
right hands of the current frame. -/
structure HandData where
  left : Option Hand
  right : Option Hand

/-- A strum signal as consumed by the aggregator. -/
structure StrumInfo where
  direction : StrumDirection
  intensity : ℝ

/-- One smoothing buffer of `handPositions`: the recent x and y samples of a
tracked wrist. -/
structure Buf where
  xs : List ℝ
  ys : List ℝ

/-- The empty smoothing buffer. -/
def emptyBuf : Buf := { xs := [], ys := [] }

/-- The mutable state of a MotionAnalysis instance (the fields read or written
by `processHandData`, plus the configuration fields set in the constructor). -/
structure MAState where
  isActive : Bool
  lastHandData : Option HandData
  strumCooldown : ℤ
  lastStrumTime : ℤ
  lastDetectedChord : Option Chord
  lastFretPosition : ℤ
  smoothingWindow : ℕ
  leftBuf : Buf
  rightBuf : Buf

/-- The constructor state of motion-analysis.js: inactive, no cached data,
cooldown 120 ms, smoothing window 3 frames. -/
def initialState : MAState :=
  { isActive := false
    lastHandData := none
    strumCooldown := 120
    lastStrumTime := 0
    lastDetectedChord := none
    lastFretPosition := 0
    smoothingWindow := 3
    leftBuf := emptyBuf
    rightBuf := emptyBuf }

/-- `setup()` marks the instance active. -/
def setup (s : MAState) : MAState := { s with isActive := true }

/-- The per-frame result record built by `processHandData`. -/
structure MAResult where
  strumDetected : Bool
  strumDirection : Option StrumDirection
  strumIntensity : ℝ
  fretPosition : ℤ
  chordType : String

/-- The callback invocations requested during one `processHandData` call:
the argument passed to the chord-changed callback and the argument passed to
the strum callback, when the respective notification fires (the source guards
each invocation behind a registered-callback check; the event records the
invocation that a registered callback would receive). -/
structure Events where
  chordChanged : Option Chord
  strumFired : Option MAResult

/-- No callback invocations. -/
def noEvents : Events := { chordChanged := none, strumFired := none }

/-- The full outcome of one `processHandData` call: the updated instance
state, the returned result (`none` models a `null` return), and the callback
invocations. -/
structure StepOut where
  state : MAState
  result : Option MAResult
  events : Events

/-- `smoothMotion` from motion-analysis.js: push the new sample into the
buffer, evict the oldest sample once the buffer exceeds the smoothing window,
and return the arithmetic mean of the buffered samples. -/
def smoothMotion (window : ℕ) (buf : Buf) (position : Point) : Buf × Point :=
  let xs0 := buf.xs ++ [position.x]
  let ys0 := buf.ys ++ [position.y]
  let xs := if window < xs0.length then xs0.tail else xs0
  let ys := if window < xs0.length then ys0.tail else ys0
  (⟨xs, ys⟩, { x := xs.sum / xs.length, y := ys.sum / ys.length })

/-- The raw Euclidean distance between the two smoothed wrist positions, as
computed inline by the fret-position section of `processHandData` (no
plane-angle adjustment is applied here). -/
def interHandDistance (strumWrist fretWrist : Point) : ℝ :=
  Real.sqrt ((strumWrist.x - fretWrist.x) ^ 2 + (strumWrist.y - fretWrist.y) ^ 2)

/-- The fret-position computation of `processHandData`, as a function of the
inter-hand distance and of the frame diagonal (`maxPossibleDistance`):
normalize against `0.7` of the diagonal, cap at `1`, map inversely and
linearly onto `0..12`, round, and clamp. -/
def fretPositionOfDistance (distance maxPossibleDistance : ℝ) : ℤ :=
  let normalizedDistance : ℝ := min 1 (distance / (maxPossibleDistance * 0.7))
  min 12 (max 0 (round ((1 - normalizedDistance) * 12)))

/-- The chord-tracking condition of `processHandData`:
`!this.lastDetectedChord || this.lastDetectedChord.name !== chordData.name`. -/
def chordDiffers (cached : Option Chord) (name : String) : Prop :=
  match cached with
  | none => True
  | some prev => prev.name ≠ name

/-- The chord-formation section of `processHandData` (lines 92-105): a
classification that is present, not "Unknown", and different from the cached
chord replaces the cache, updates the result record, and requests the
chord-changed callback. -/
def chordSection (s : MAState) (result : MAResult) (chordData : Option Chord) :
    MAState × MAResult × Option Chord :=
  match chordData with
  | some cd =>
      if cd.name ≠ "Unknown" ∧ chordDiffers s.lastDetectedChord cd.name then
        ({ s with lastDetectedChord := some cd },
         { result with chordType := cd.name },
         some cd)
      else (s, result, none)
  | none => (s, result, none)

/-- The fret-position section of `processHandData` (lines 110-147): with both
hands visible, smooth both wrist positions, compute their raw distance,
normalize against the frame diagonal and store the resulting fret position;
with only the strumming hand visible, keep the previous fret position. -/
def fretSection (s : MAState) (result : MAResult) (handData : HandData)
    (canvasWidth canvasHeight : ℝ) : MAState × MAResult :=
  match handData.left, handData.right with
  | some lh, some rh =>
      let rawStrumWrist := lh.keypoints 0
      let rawFretWrist := rh.keypoints 0
      let smoothedL := smoothMotion s.smoothingWindow s.leftBuf rawStrumWrist
      let smoothedR := smoothMotion s.smoothingWindow s.rightBuf rawFretWrist
      let distance := interHandDistance smoothedL.2 smoothedR.2
      let maxPossibleDistance :=
        Real.sqrt (canvasWidth * canvasWidth + canvasHeight * canvasHeight)
      let fretPosition := fretPositionOfDistance distance maxPossibleDistance
      ({ s with leftBuf := smoothedL.1, rightBuf := smoothedR.1,
                lastFretPosition := fretPosition },
       { result with fretPosition := fretPosition })
  | some _, none => (s, { result with fretPosition := s.lastFretPosition })
  | none, _ => (s, result)

/-- The strum section of `processHandData` (lines 149-173): a strum signal is
forwarded only when `now - lastStrumTime > strumCooldown`; forwarding marks
the result, updates `lastStrumTime` and requests the strum callback with the
result record; a suppressed signal changes nothing. -/
def strumSection (s : MAState) (result : MAResult)
    (strummingMotion : Option StrumInfo) (now : ℤ) :
    MAState × MAResult × Option MAResult :=
  match strummingMotion with
  | some sm =>
      if s.strumCooldown < now - s.lastStrumTime then
        let result1 := { result with strumDetected := true
                                     strumDirection := some sm.direction
                                     strumIntensity := sm.intensity }
        ({ s with lastStrumTime := now }, result1, some result1)
      else (s, result, none)
  | none => (s, result, none)

/-- The inputs of one `processHandData` call: the tracking data of the frame,
the current time (`Date.now()`), and the overlay canvas dimensions read from
the DOM. -/
structure Input where
  handData : Option HandData
  strummingMotion : Option StrumInfo
  chordData : Option Chord
  now : ℤ
  canvasWidth : ℝ
  canvasHeight : ℝ

/-- The result record as initialized at the top of `processHandData`: no
strum, the cached fret position, and the cached chord name (or "none"). -/
def initialResult (s : MAState) : MAResult :=
  { strumDetected := false
    strumDirection := none
    strumIntensity := 0
    fretPosition := s.lastFretPosition
    chordType := match s.lastDetectedChord with
                 | some c => c.name
                 | none => "none" }

/-- `processHandData` from motion-analysis.js: `null` when inactive or when no
hand data is given; otherwise store the hand data, build the initial result
record from the cached fret position and chord, and run the chord, fret and
strum sections in order.  (The local `previousHandData` of the source is never
read after its assignment and is not modelled.) -/
def processHandData (s : MAState) (inp : Input) : StepOut :=
  if s.isActive = false then { state := s, result := none, events := noEvents }
  else
    match inp.handData with
    | none => { state := s, result := none, events := noEvents }
    | some handData =>
        let s1 := { s with lastHandData := some handData }
        let c := chordSection s1 (initialResult s1) inp.chordData
        let f := fretSection c.1 c.2.1 handData inp.canvasWidth inp.canvasHeight
        let t := strumSection f.1 f.2 inp.strummingMotion inp.now
        { state := t.1
          result := some t.2.1
          events := { chordChanged := c.2.2, strumFired := t.2.2 } }

end MotionAnalysis

namespace SpecModel

/-- The two-point distance as the specification words it: apply the
plane-angle transform `y := y + x * tan(radians(angle - 90))` to each point,
then take the Euclidean distance.  Written from the words of the spec, for
comparison with the distances the code actually computes. -/
def adjustedDistance (angle : ℝ) (p q : MotionAnalysis.Point) : ℝ :=
  let t := Real.tan (degreesToRadians (angle - 90))
  Real.sqrt ((q.x - p.x) ^ 2 + ((q.y + q.x * t) - (p.y + p.x * t)) ^ 2)

end SpecModel

/-! ## Helper lemmas -/

/-- Characterization of `calculateDistance` on two present points with
numeric coordinates. -/
theorem calculateDistance_some (angle px py pz qx qy qz : ℝ) :
    HandTracking.calculateDistance angle
        (some { x := some px, y := some py, z := some pz })
        (some { x := some qx, y := some qy, z := some qz }) =
      some (Real.sqrt ((qx - px) * (qx - px) +
        ((qy + qx * Real.tan (degreesToRadians (angle - 90))) -
            (py + px * Real.tan (degreesToRadians (angle - 90)))) *
          ((qy + qx * Real.tan (degreesToRadians (angle - 90))) -
            (py + px * Real.tan (degreesToRadians (angle - 90)))) +
        (qz - pz) * (qz - pz))) := by
  simp only [HandTracking.calculateDistance, HandTracking.zOrZero,
    jsAdd_some_some, jsMul_some_some, jsSub_some_some]
  rw [jsSqrt_some_nonneg]
  have h1 := mul_self_nonneg (qx - px)
  have h2 := mul_self_nonneg
    ((qy + qx * Real.tan (degreesToRadians (angle - 90))) -
      (py + px * Real.tan (degreesToRadians (angle - 90))))
  have h3 := mul_self_nonneg (qz - pz)
  linarith

/-- Splitting an equality of pairs into its components. -/
theorem pair_eq_split {α β : Type} {a c : α} {b d : β} (h : (a, b) = (c, d)) :
    a = c ∧ b = d := by
  rw [Prod.mk.injEq] at h
  exact h

/-- Rounding is monotone. -/
theorem round_mono_of_le {x y : ℝ} (h : x ≤ y) : round x ≤ round y := by
  rw [round_eq, round_eq]
  exact Int.floor_mono (by linarith)

/-- Characterization of `detectStrummingMotion` when both frames carry the
strumming hand and both wrist y-coordinates are numeric. -/
theorem detectStrummingMotion_eq (h ph : HandTracking.Hand) (cy py : ℝ)
    (hc : (h.keypoints HandTracking.WRIST).y = some cy)
    (hp : (ph.keypoints HandTracking.WRIST).y = some py) :
    HandTracking.detectStrummingMotion (some h) (some ph) =
      (if HandTracking.STRUM_THRESHOLD < |cy - py| then
        some { direction := if 0 < cy - py then .down else .up
               intensity := jsDiv (some |cy - py|) (some 50)
               position := h.keypoints HandTracking.WRIST }
      else none) := by
  simp only [HandTracking.detectStrummingMotion, hc, hp, jsSub_some_some,
    jsAbs_some, jsLt_some_some]

/-- A hand whose keypoints all sit at the given numeric 2D position (used to
instantiate concrete frames). -/
def flatHand (xv yv : ℝ) : HandTracking.Hand :=
  { keypoints := fun _ => { x := some xv, y := some yv, z := some 0 }
    keypoints3D := none }

namespace MotionAnalysis

/-- The chord section only touches the cached chord and the chordType field of
the result. -/
theorem chordSection_preserves (s : MAState) (r : MAResult) (cd : Option Chord) :
    (chordSection s r cd).1.isActive = s.isActive ∧
    (chordSection s r cd).1.lastStrumTime = s.lastStrumTime ∧
    (chordSection s r cd).1.strumCooldown = s.strumCooldown ∧
    (chordSection s r cd).1.smoothingWindow = s.smoothingWindow ∧
    (chordSection s r cd).1.leftBuf = s.leftBuf ∧
    (chordSection s r cd).1.rightBuf = s.rightBuf ∧
    (chordSection s r cd).1.lastFretPosition = s.lastFretPosition ∧
    (chordSection s r cd).1.lastHandData = s.lastHandData ∧
    (chordSection s r cd).2.1.strumDetected = r.strumDetected ∧
    (chordSection s r cd).2.1.fretPosition = r.fretPosition := by
  unfold chordSection
  cases cd
  · simp
  · dsimp only
    split_ifs <;> simp

/-- The fret section only touches the smoothing buffers and the fret
position. -/
theorem fretSection_preserves (s : MAState) (r : MAResult) (hd : HandData)
    (W H : ℝ) :
    (fretSection s r hd W H).1.isActive = s.isActive ∧
    (fretSection s r hd W H).1.lastStrumTime = s.lastStrumTime ∧
    (fretSection s r hd W H).1.strumCooldown = s.strumCooldown ∧
    (fretSection s r hd W H).1.lastDetectedChord = s.lastDetectedChord ∧
    (fretSection s r hd W H).1.lastHandData = s.lastHandData ∧
    (fretSection s r hd W H).2.strumDetected = r.strumDetected ∧
    (fretSection s r hd W H).2.chordType = r.chordType := by
  unfold fretSection
  rcases hd with ⟨l, r2⟩
  cases l <;> cases r2 <;> simp

/-- The strum section only touches `lastStrumTime` and the strum fields of
the result. -/
theorem strumSection_preserves (s : MAState) (r : MAResult)
    (m : Option StrumInfo) (now : ℤ) :
    (strumSection s r m now).1.isActive = s.isActive ∧
    (strumSection s r m now).1.strumCooldown = s.strumCooldown ∧
    (strumSection s r m now).1.smoothingWindow = s.smoothingWindow ∧
    (strumSection s r m now).1.lastDetectedChord = s.lastDetectedChord ∧
    (strumSection s r m now).1.lastFretPosition = s.lastFretPosition ∧
    (strumSection s r m now).2.1.chordType = r.chordType ∧
    (strumSection s r m now).2.1.fretPosition = r.fretPosition := by
  unfold strumSection
  cases m
  · simp
  · dsimp only
    split_ifs <;> simp

/-- Behaviour of the strum section on a present signal: forwarded exactly when
the cooldown has elapsed. -/
theorem strumSection_spec (s : MAState) (r : MAResult) (sm : StrumInfo)
    (now : ℤ) :
    ((strumSection s r (some sm) now).2.1.strumDetected =
        (decide (s.strumCooldown < now - s.lastStrumTime) || r.strumDetected)) ∧
    ((strumSection s r (some sm) now).1.lastStrumTime =
        if s.strumCooldown < now - s.lastStrumTime then now
        else s.lastStrumTime) ∧
    ((strumSection s r (some sm) now).2.2 =
        if s.strumCooldown < now - s.lastStrumTime then
          some (strumSection s r (some sm) now).2.1
        else none) := by
  unfold strumSection
  by_cases hcool : s.strumCooldown < now - s.lastStrumTime
  · simp [hcool]
  · simp [hcool]

/-- Behaviour of the chord section on a present classification. -/
theorem chordSection_spec (s : MAState) (r : MAResult) (cd : Chord) :
    ((chordSection s r (some cd)).1.lastDetectedChord,
     (chordSection s r (some cd)).2.2) =
      (if cd.name ≠ "Unknown" ∧ chordDiffers s.lastDetectedChord cd.name then
        (some cd, some cd)
      else (s.lastDetectedChord, none)) := by
  unfold chordSection
  dsimp only
  split_ifs <;> simp

/-- The chord section does nothing on a missing classification. -/
theorem chordSection_none (s : MAState) (r : MAResult) :
    (chordSection s r none).1.lastDetectedChord = s.lastDetectedChord ∧
    (chordSection s r none).2.2 = none := by
  simp [chordSection]

/-- The strum behaviour of the chord-fret-strum pipeline, for an initial
result with no strum flag. -/
theorem pipeline_strum (s1 : MAState) (r0 : MAResult) (cd : Option Chord)
    (hd : HandData) (W H : ℝ) (sm : StrumInfo) (now : ℤ)
    (hr0 : r0.strumDetected = false) :
    ((strumSection (fretSection (chordSection s1 r0 cd).1
          (chordSection s1 r0 cd).2.1 hd W H).1
        (fretSection (chordSection s1 r0 cd).1
          (chordSection s1 r0 cd).2.1 hd W H).2 (some sm) now).2.1.strumDetected =
      decide (s1.strumCooldown < now - s1.lastStrumTime)) ∧
    ((strumSection (fretSection (chordSection s1 r0 cd).1
          (chordSection s1 r0 cd).2.1 hd W H).1
        (fretSection (chordSection s1 r0 cd).1
          (chordSection s1 r0 cd).2.1 hd W H).2 (some sm) now).1.lastStrumTime =
      if s1.strumCooldown < now - s1.lastStrumTime then now
      else s1.lastStrumTime) ∧
    ((strumSection (fretSection (chordSection s1 r0 cd).1
          (chordSection s1 r0 cd).2.1 hd W H).1
        (fretSection (chordSection s1 r0 cd).1
          (chordSection s1 r0 cd).2.1 hd W H).2 (some sm) now).2.2 =
      if s1.strumCooldown < now - s1.lastStrumTime then
        some (strumSection (fretSection (chordSection s1 r0 cd).1
            (chordSection s1 r0 cd).2.1 hd W H).1
          (fretSection (chordSection s1 r0 cd).1
            (chordSection s1 r0 cd).2.1 hd W H).2 (some sm) now).2.1
      else none) := by
  obtain ⟨-, cT, cC, -, -, -, -, -, cSD, -⟩ := chordSection_preserves s1 r0 cd
  obtain ⟨-, fT, fC, -, -, fSD, -⟩ := fretSection_preserves (chordSection s1 r0 cd).1
    (chordSection s1 r0 cd).2.1 hd W H
  obtain ⟨t1, t2, t3⟩ := strumSection_spec (fretSection (chordSection s1 r0 cd).1
    (chordSection s1 r0 cd).2.1 hd W H).1
    (fretSection (chordSection s1 r0 cd).1
      (chordSection s1 r0 cd).2.1 hd W H).2 sm now
  rw [t1, t2, t3, fC, fT, cC, cT, fSD, cSD, hr0]
  simp

/-- The cached chord of the pipeline output is the chord section's cache. -/
theorem pipeline_chordstate (s1 : MAState) (r0 : MAResult) (cd : Option Chord)
    (hd : HandData) (W H : ℝ) (m : Option StrumInfo) (now : ℤ) :
    (strumSection (fretSection (chordSection s1 r0 cd).1
          (chordSection s1 r0 cd).2.1 hd W H).1
        (fretSection (chordSection s1 r0 cd).1
          (chordSection s1 r0 cd).2.1 hd W H).2 m now).1.lastDetectedChord =
      (chordSection s1 r0 cd).1.lastDetectedChord := by
  obtain ⟨-, -, -, fD, -, -, -⟩ := fretSection_preserves (chordSection s1 r0 cd).1
    (chordSection s1 r0 cd).2.1 hd W H
  obtain ⟨-, -, -, tD, -, -, -⟩ := strumSection_preserves
    (fretSection (chordSection s1 r0 cd).1
      (chordSection s1 r0 cd).2.1 hd W H).1
    (fretSection (chordSection s1 r0 cd).1
      (chordSection s1 r0 cd).2.1 hd W H).2 m now
  rw [tD, fD]

/-- `processHandData` never changes the active flag or the configured
cooldown. -/
theorem processHandData_preserves (s : MAState) (inp : Input) :
    (processHandData s inp).state.isActive = s.isActive ∧
    (processHandData s inp).state.strumCooldown = s.strumCooldown := by
  cases hA : s.isActive with
  | false => simp [processHandData, hA]
  | true =>
    cases hH : inp.handData with
    | none => simp [processHandData, hA, hH]
    | some hd =>
      have hAne : ¬ s.isActive = false := by simp [hA]
      unfold processHandData
      rw [if_neg hAne, hH]
      dsimp only
      obtain ⟨cA, -, cC, -, -, -, -, -, -, -⟩ := chordSection_preserves
        { s with lastHandData := some hd }
        (initialResult { s with lastHandData := some hd }) inp.chordData
      obtain ⟨fA, -, fC, -, -, -, -⟩ := fretSection_preserves
        (chordSection { s with lastHandData := some hd }
          (initialResult { s with lastHandData := some hd }) inp.chordData).1
        (chordSection { s with lastHandData := some hd }
          (initialResult { s with lastHandData := some hd }) inp.chordData).2.1
        hd inp.canvasWidth inp.canvasHeight
      obtain ⟨tA, tC, -, -, -, -, -⟩ := strumSection_preserves
        (fretSection (chordSection { s with lastHandData := some hd }
            (initialResult { s with lastHandData := some hd }) inp.chordData).1
          (chordSection { s with lastHandData := some hd }
            (initialResult { s with lastHandData := some hd }) inp.chordData).2.1
          hd inp.canvasWidth inp.canvasHeight).1
        (fretSection (chordSection { s with lastHandData := some hd }
            (initialResult { s with lastHandData := some hd }) inp.chordData).1
          (chordSection { s with lastHandData := some hd }
            (initialResult { s with lastHandData := some hd }) inp.chordData).2.1
          hd inp.canvasWidth inp.canvasHeight).2
        inp.strummingMotion inp.now
      rw [tA, fA, cA, tC, fC, cC]
      simp [hA]

/-- With an active instance, hand data and a strum signal present, the signal
is forwarded (strum flag set, `lastStrumTime` updated to `now`, strum callback
fired with the returned result) exactly when the cooldown has elapsed, and a
suppressed signal leaves `lastStrumTime` unchanged. -/
theorem processHandData_strum (s : MAState) (inp : Input) (hd : HandData)
    (sm : StrumInfo) (hA : s.isActive = true) (hH : inp.handData = some hd)
    (hS : inp.strummingMotion = some sm) :
    ((processHandData s inp).result.map MAResult.strumDetected =
        some (decide (s.strumCooldown < inp.now - s.lastStrumTime))) ∧
    ((processHandData s inp).state.lastStrumTime =
        if s.strumCooldown < inp.now - s.lastStrumTime then inp.now
        else s.lastStrumTime) ∧
    ((processHandData s inp).events.strumFired =
        if s.strumCooldown < inp.now - s.lastStrumTime then
          (processHandData s inp).result
        else none) := by
  have hAne : ¬ s.isActive = false := by simp [hA]
  unfold processHandData
  rw [if_neg hAne, hH, hS]
  dsimp only
  obtain ⟨p1, p2, p3⟩ := pipeline_strum { s with lastHandData := some hd }
    (initialResult { s with lastHandData := some hd }) inp.chordData hd
    inp.canvasWidth inp.canvasHeight sm inp.now rfl
  refine ⟨?_, ?_, ?_⟩
  · dsimp only [Option.map]
    rw [p1]
  · exact p2
  · rw [p3]

/-- With an active instance and hand data present, the cached chord and the
chord-changed event follow the chord-section rule: a present classification
replaces the cache and fires the notification exactly when its name is not
"Unknown" and differs from the cached name. -/
theorem processHandData_chord (s : MAState) (inp : Input) (hd : HandData)
    (cd : Chord) (hA : s.isActive = true) (hH : inp.handData = some hd)
    (hC : inp.chordData = some cd) :
    ((processHandData s inp).state.lastDetectedChord,
     (processHandData s inp).events.chordChanged) =
      (if cd.name ≠ "Unknown" ∧ chordDiffers s.lastDetectedChord cd.name then
        (some cd, some cd)
      else (s.lastDetectedChord, none)) := by
  have hAne : ¬ s.isActive = false := by simp [hA]
  unfold processHandData
  rw [if_neg hAne, hH, hC]
  dsimp only
  rw [pipeline_chordstate]
  exact chordSection_spec { s with lastHandData := some hd }
    (initialResult { s with lastHandData := some hd }) cd

/-- With an active instance, hand data present and no classification, the
cache and the chord-changed event are untouched. -/
theorem processHandData_nochord (s : MAState) (inp : Input) (hd : HandData)
    (hA : s.isActive = true) (hH : inp.handData = some hd)
    (hC : inp.chordData = none) :
    (processHandData s inp).state.lastDetectedChord = s.lastDetectedChord ∧
    (processHandData s inp).events.chordChanged = none := by
  have hAne : ¬ s.isActive = false := by simp [hA]
  unfold processHandData
  rw [if_neg hAne, hH, hC]
  dsimp only
  rw [pipeline_chordstate]
  exact ⟨(chordSection_none _ _).1, (chordSection_none _ _).2⟩

/-- A frame carrying only a strum signal (no hands visible, no chord data). -/
def strumFrame (sm : StrumInfo) (t : ℤ) (W H : ℝ) : Input :=
  { handData := some { left := none, right := none }
    strummingMotion := some sm
    chordData := none
    now := t
    canvasWidth := W
    canvasHeight := H }

/-- A frame carrying only a chord classification. -/
def chordFrame (cd : Chord) (t : ℤ) (W H : ℝ) : Input :=
  { handData := some { left := none, right := none }
    strummingMotion := none
    chordData := some cd
    now := t
    canvasWidth := W
    canvasHeight := H }

end MotionAnalysis

/-! ## Claims -/

/-- C1: with the strumming-role wrist present in both the current and the
previous frame (numeric y-coordinates `cy` and `py`), `detectStrummingMotion`
emits a strum signal exactly when `|cy - py|` strictly exceeds the strum pixel
threshold — for `|cy - py| ≤ STRUM_THRESHOLD` no signal is emitted — and the
direction of an emitted signal is down when the movement is positive and up
otherwise. -/
theorem strum_emission_rule (h ph : HandTracking.Hand) (cy py : ℝ)
    (hc : (h.keypoints HandTracking.WRIST).y = some cy)
    (hp : (ph.keypoints HandTracking.WRIST).y = some py) :
    (HandTracking.detectStrummingMotion (some h) (some ph) = none ↔
      |cy - py| ≤ HandTracking.STRUM_THRESHOLD) ∧
    ((HandTracking.detectStrummingMotion (some h) (some ph)).map
        HandTracking.StrumInfo.direction =
      if HandTracking.STRUM_THRESHOLD < |cy - py| then
        some (if 0 < cy - py then StrumDirection.down else StrumDirection.up)
      else none) := by
  rw [detectStrummingMotion_eq h ph cy py hc hp]
  by_cases hlt : HandTracking.STRUM_THRESHOLD < |cy - py|
  · simp [hlt, not_le.mpr hlt]
  · simp [hlt, not_lt.mp hlt]

/-- Witness for C1: wrist moving from y 270 to y 300 emits a down strum. -/
theorem strum_emission_rule_witness :
    HandTracking.detectStrummingMotion (some (flatHand 1 300))
        (some (flatHand 1 270)) ≠ none ∧
    (HandTracking.detectStrummingMotion (some (flatHand 1 300))
        (some (flatHand 1 270))).map HandTracking.StrumInfo.direction =
      some StrumDirection.down := by
  have h := strum_emission_rule (flatHand 1 300) (flatHand 1 270) 300 270 rfl rfl
  constructor
  · intro hn
    have h1 := h.1.mp hn
    norm_num [HandTracking.STRUM_THRESHOLD] at h1
  · rw [h.2]
    norm_num [HandTracking.STRUM_THRESHOLD]

/-- C6 counterexample: a wrist movement of 100 px emits intensity 2, while the
clamp of `|yMovement| / 50` into `[0, 1]` is 1 — the emitted intensity is not
clamped and exceeds 1. -/
theorem strum_intensity_clamp_cex :
    (HandTracking.detectStrummingMotion (some (flatHand 1 300))
        (some (flatHand 1 200))).map HandTracking.StrumInfo.intensity =
      some (some 2) ∧
    min 1 (|(300 : ℝ) - 200| / 50) = 1 ∧ ((2 : ℝ) ≠ 1) := by
  refine ⟨?_, by norm_num, by norm_num⟩
  rw [detectStrummingMotion_eq (flatHand 1 300) (flatHand 1 200) 300 200 rfl rfl]
  norm_num [HandTracking.STRUM_THRESHOLD, jsDiv]

/-- C6 (amended): whenever `detectStrummingMotion` emits a strum signal, its
intensity equals `|yMovement| / 50` with no clamping — 0.6 for a movement of
30 px, but above 1 whenever the movement exceeds 50 px. -/
theorem strum_intensity_formula (h ph : HandTracking.Hand) (cy py : ℝ)
    (hc : (h.keypoints HandTracking.WRIST).y = some cy)
    (hp : (ph.keypoints HandTracking.WRIST).y = some py) :
    (HandTracking.detectStrummingMotion (some h) (some ph)).map
        HandTracking.StrumInfo.intensity =
      if HandTracking.STRUM_THRESHOLD < |cy - py| then
        some (some (|cy - py| / 50))
      else none := by
  rw [detectStrummingMotion_eq h ph cy py hc hp]
  by_cases hlt : HandTracking.STRUM_THRESHOLD < |cy - py|
  · simp [hlt, jsDiv]
  · simp [hlt]

/-- Witness for the amended C6: a movement of 30 px gives intensity 0.6. -/
theorem strum_intensity_formula_witness :
    (HandTracking.detectStrummingMotion (some (flatHand 1 300))
        (some (flatHand 1 270))).map HandTracking.StrumInfo.intensity =
      some (some 0.6) := by
  have h := strum_intensity_formula (flatHand 1 300) (flatHand 1 270) 300 270 rfl rfl
  rw [h]
  norm_num [HandTracking.STRUM_THRESHOLD]

/-- C2: an incoming strum signal is forwarded by an active `processHandData`
(strum flag set, `lastStrumTime` updated, strum callback fired with the
result) exactly when `now - lastStrumTime > strumCooldown`; a suppressed
signal leaves `lastStrumTime` unchanged, so of two qualifying signals closer
than the cooldown only the first is forwarded, and a third signal a full
cooldown after the first is forwarded again. -/
theorem strum_cooldown_gate :
    (∀ (s : MotionAnalysis.MAState) (inp : MotionAnalysis.Input)
        (hd : MotionAnalysis.HandData) (sm : MotionAnalysis.StrumInfo),
      s.isActive = true → inp.handData = some hd →
      inp.strummingMotion = some sm →
      ((MotionAnalysis.processHandData s inp).result.map
          MotionAnalysis.MAResult.strumDetected =
        some (decide (s.strumCooldown < inp.now - s.lastStrumTime))) ∧
      ((MotionAnalysis.processHandData s inp).state.lastStrumTime =
        if s.strumCooldown < inp.now - s.lastStrumTime then inp.now
        else s.lastStrumTime) ∧
      ((MotionAnalysis.processHandData s inp).events.strumFired =
        if s.strumCooldown < inp.now - s.lastStrumTime then
          (MotionAnalysis.processHandData s inp).result
        else none)) ∧
    (∀ (s : MotionAnalysis.MAState) (sm1 sm2 sm3 : MotionAnalysis.StrumInfo)
        (t1 t2 t3 : ℤ) (W H : ℝ),
      s.isActive = true →
      s.strumCooldown < t1 - s.lastStrumTime →
      t2 - t1 ≤ s.strumCooldown →
      s.strumCooldown < t3 - t1 →
      ((MotionAnalysis.processHandData s
          (MotionAnalysis.strumFrame sm1 t1 W H)).result.map
            MotionAnalysis.MAResult.strumDetected = some true) ∧
      ((MotionAnalysis.processHandData
          (MotionAnalysis.processHandData s
            (MotionAnalysis.strumFrame sm1 t1 W H)).state
          (MotionAnalysis.strumFrame sm2 t2 W H)).result.map
            MotionAnalysis.MAResult.strumDetected = some false) ∧
      ((MotionAnalysis.processHandData
          (MotionAnalysis.processHandData
            (MotionAnalysis.processHandData s
              (MotionAnalysis.strumFrame sm1 t1 W H)).state
            (MotionAnalysis.strumFrame sm2 t2 W H)).state
          (MotionAnalysis.strumFrame sm3 t3 W H)).result.map
            MotionAnalysis.MAResult.strumDetected = some true)) := by
  constructor
  · intro s inp hd sm hA hH hS
    exact MotionAnalysis.processHandData_strum s inp hd sm hA hH hS
  · intro s sm1 sm2 sm3 t1 t2 t3 W H hA h1 h2 h3
    obtain ⟨a1, b1, -⟩ := MotionAnalysis.processHandData_strum s
      (MotionAnalysis.strumFrame sm1 t1 W H) { left := none, right := none }
      sm1 hA rfl rfl
    obtain ⟨pA1, pC1⟩ := MotionAnalysis.processHandData_preserves s
      (MotionAnalysis.strumFrame sm1 t1 W H)
    have hT1 : (MotionAnalysis.processHandData s
        (MotionAnalysis.strumFrame sm1 t1 W H)).state.lastStrumTime = t1 := by
      rw [b1]
      exact if_pos h1
    have hA1 : (MotionAnalysis.processHandData s
        (MotionAnalysis.strumFrame sm1 t1 W H)).state.isActive = true := by
      rw [pA1, hA]
    obtain ⟨a2, b2, -⟩ := MotionAnalysis.processHandData_strum
      (MotionAnalysis.processHandData s (MotionAnalysis.strumFrame sm1 t1 W H)).state
      (MotionAnalysis.strumFrame sm2 t2 W H) { left := none, right := none }
      sm2 hA1 rfl rfl
    obtain ⟨pA2, pC2⟩ := MotionAnalysis.processHandData_preserves
      (MotionAnalysis.processHandData s (MotionAnalysis.strumFrame sm1 t1 W H)).state
      (MotionAnalysis.strumFrame sm2 t2 W H)
    have hnot2 : ¬ ((MotionAnalysis.processHandData s
          (MotionAnalysis.strumFrame sm1 t1 W H)).state.strumCooldown <
        (MotionAnalysis.strumFrame sm2 t2 W H).now -
          (MotionAnalysis.processHandData s
            (MotionAnalysis.strumFrame sm1 t1 W H)).state.lastStrumTime) := by
      rw [pC1, hT1]
      exact not_lt.mpr h2
    have hT2 : (MotionAnalysis.processHandData
        (MotionAnalysis.processHandData s (MotionAnalysis.strumFrame sm1 t1 W H)).state
        (MotionAnalysis.strumFrame sm2 t2 W H)).state.lastStrumTime = t1 := by
      rw [b2]
      rw [if_neg hnot2]
      exact hT1
    have hA2 : (MotionAnalysis.processHandData
        (MotionAnalysis.processHandData s (MotionAnalysis.strumFrame sm1 t1 W H)).state
        (MotionAnalysis.strumFrame sm2 t2 W H)).state.isActive = true := by
      rw [pA2, hA1]
    obtain ⟨a3, -, -⟩ := MotionAnalysis.processHandData_strum
      (MotionAnalysis.processHandData
        (MotionAnalysis.processHandData s (MotionAnalysis.strumFrame sm1 t1 W H)).state
        (MotionAnalysis.strumFrame sm2 t2 W H)).state
      (MotionAnalysis.strumFrame sm3 t3 W H) { left := none, right := none }
      sm3 hA2 rfl rfl
    refine ⟨?_, ?_, ?_⟩
    · rw [a1]
      simp [MotionAnalysis.strumFrame, h1]
    · rw [a2]
      simp [hnot2]
    · rw [a3]
      have hc3 : (MotionAnalysis.processHandData
          (MotionAnalysis.processHandData s (MotionAnalysis.strumFrame sm1 t1 W H)).state
          (MotionAnalysis.strumFrame sm2 t2 W H)).state.strumCooldown <
          (MotionAnalysis.strumFrame sm3 t3 W H).now -
          (MotionAnalysis.processHandData
            (MotionAnalysis.processHandData s (MotionAnalysis.strumFrame sm1 t1 W H)).state
            (MotionAnalysis.strumFrame sm2 t2 W H)).state.lastStrumTime := by
        rw [pC2, pC1, hT2]
        exact h3
      simp [hc3]

/-- A strum signal used to instantiate the C2 scenario. -/
def strumDown1 : MotionAnalysis.StrumInfo :=
  { direction := StrumDirection.down, intensity := 1 }

/-- Witness for C2: from a fresh active instance, qualifying signals at times
200, 300 and 340 ms (cooldown 120 ms) are forwarded, suppressed and forwarded
again. -/
theorem strum_cooldown_gate_witness :
    ((MotionAnalysis.processHandData
        (MotionAnalysis.setup MotionAnalysis.initialState)
        (MotionAnalysis.strumFrame strumDown1 200 0 0)).result.map
          MotionAnalysis.MAResult.strumDetected = some true) ∧
    ((MotionAnalysis.processHandData
        (MotionAnalysis.processHandData
          (MotionAnalysis.setup MotionAnalysis.initialState)
          (MotionAnalysis.strumFrame strumDown1 200 0 0)).state
        (MotionAnalysis.strumFrame strumDown1 300 0 0)).result.map
          MotionAnalysis.MAResult.strumDetected = some false) ∧
    ((MotionAnalysis.processHandData
        (MotionAnalysis.processHandData
          (MotionAnalysis.processHandData
            (MotionAnalysis.setup MotionAnalysis.initialState)
            (MotionAnalysis.strumFrame strumDown1 200 0 0)).state
          (MotionAnalysis.strumFrame strumDown1 300 0 0)).state
        (MotionAnalysis.strumFrame strumDown1 340 0 0)).result.map
          MotionAnalysis.MAResult.strumDetected = some true) :=
  strum_cooldown_gate.2 (MotionAnalysis.setup MotionAnalysis.initialState)
    strumDown1 strumDown1 strumDown1 200 300 340 0 0 rfl
    (by norm_num [MotionAnalysis.setup, MotionAnalysis.initialState])
    (by norm_num [MotionAnalysis.setup, MotionAnalysis.initialState])
    (by norm_num [MotionAnalysis.setup, MotionAnalysis.initialState])

namespace MotionAnalysis

/-- C4: the cached current chord is replaced, and the chord-changed callback
invoked, only when the incoming name differs from the cached name and is not
"Unknown"; after detecting "C Major" and then "Unknown" the current chord is
still "C Major"; and two consecutive frames carrying the same chord name
trigger no second chord-changed notification. -/
theorem chord_cache_rule :
    (∀ (s : MAState) (inp : Input) (hd : HandData),
      s.isActive = true → inp.handData = some hd →
      ((processHandData s inp).state.lastDetectedChord ≠ s.lastDetectedChord ∨
        (processHandData s inp).events.chordChanged ≠ none) →
      ∃ cd, inp.chordData = some cd ∧ cd.name ≠ "Unknown" ∧
        chordDiffers s.lastDetectedChord cd.name) ∧
    (∀ (s : MAState) (c1 c2 : ℝ) (t1 t2 : ℤ) (W H : ℝ),
      s.isActive = true →
      ((processHandData
          (processHandData s
            (chordFrame { name := "C Major", confidence := c1 } t1 W H)).state
          (chordFrame { name := "Unknown", confidence := c2 } t2 W H)).state.lastDetectedChord.map
        Chord.name = some "C Major" ∧
      (processHandData
          (processHandData s
            (chordFrame { name := "C Major", confidence := c1 } t1 W H)).state
          (chordFrame { name := "Unknown", confidence := c2 } t2 W H)).events.chordChanged =
        none)) ∧
    (∀ (s : MAState) (cd cd2 : Chord) (t1 t2 : ℤ) (W H : ℝ),
      s.isActive = true → cd2.name = cd.name →
      (processHandData
          (processHandData s (chordFrame cd t1 W H)).state
          (chordFrame cd2 t2 W H)).events.chordChanged = none) := by
  refine ⟨?_, ?_, ?_⟩
  · intro s inp hd hA hH hchange
    cases hC : inp.chordData with
    | none =>
      obtain ⟨u1, u2⟩ := processHandData_nochord s inp hd hA hH hC
      rcases hchange with hx | hx
      · exact absurd u1 hx
      · exact absurd u2 hx
    | some cd =>
      have hp := processHandData_chord s inp hd cd hA hH hC
      by_cases hcond : cd.name ≠ "Unknown" ∧ chordDiffers s.lastDetectedChord cd.name
      · exact ⟨cd, rfl, hcond.1, hcond.2⟩
      · rw [if_neg hcond] at hp
        have hu1 : (processHandData s inp).state.lastDetectedChord =
            s.lastDetectedChord := (pair_eq_split hp).1
        have hu2 : (processHandData s inp).events.chordChanged = none :=
          (pair_eq_split hp).2
        rcases hchange with hx | hx
        · exact absurd hu1 hx
        · exact absurd hu2 hx
  · intro s c1 c2 t1 t2 W H hA
    have hp1 := processHandData_chord s
      (chordFrame { name := "C Major", confidence := c1 } t1 W H)
      { left := none, right := none } { name := "C Major", confidence := c1 }
      hA rfl rfl
    have hA1 : (processHandData s
        (chordFrame { name := "C Major", confidence := c1 } t1 W H)).state.isActive =
        true := by
      rw [(processHandData_preserves s _).1, hA]
    have hcache : ∃ cc, (processHandData s
        (chordFrame { name := "C Major", confidence := c1 } t1 W H)).state.lastDetectedChord =
          some cc ∧ cc.name = "C Major" := by
      by_cases hcond : ({ name := "C Major", confidence := c1 } : Chord).name ≠ "Unknown" ∧
          chordDiffers s.lastDetectedChord ({ name := "C Major", confidence := c1 } : Chord).name
      · rw [if_pos hcond] at hp1
        exact ⟨_, (pair_eq_split hp1).1, rfl⟩
      · rw [if_neg hcond] at hp1
        have hu1 := (pair_eq_split hp1).1
        have hne : ({ name := "C Major", confidence := c1 } : Chord).name ≠ "Unknown" := by
          show "C Major" ≠ "Unknown"
          decide
        have hnd : ¬ chordDiffers s.lastDetectedChord "C Major" :=
          fun hdiff => hcond ⟨hne, hdiff⟩
        cases hcc : s.lastDetectedChord with
        | none =>
          refine absurd ?_ hnd
          rw [hcc]
          trivial
        | some prev =>
          have hprev : prev.name = "C Major" := by
            by_contra hne2
            refine hnd ?_
            rw [hcc]
            exact hne2
          refine ⟨prev, ?_, hprev⟩
          rw [hu1, hcc]
    obtain ⟨cc, hcc1, hcc2⟩ := hcache
    have hp2 := processHandData_chord
      (processHandData s
        (chordFrame { name := "C Major", confidence := c1 } t1 W H)).state
      (chordFrame { name := "Unknown", confidence := c2 } t2 W H)
      { left := none, right := none } { name := "Unknown", confidence := c2 }
      hA1 rfl rfl
    have hcond2 : ¬ (({ name := "Unknown", confidence := c2 } : Chord).name ≠ "Unknown" ∧
        chordDiffers (processHandData s
          (chordFrame { name := "C Major", confidence := c1 } t1 W H)).state.lastDetectedChord
          ({ name := "Unknown", confidence := c2 } : Chord).name) := by
      rintro ⟨hcontra, -⟩
      exact hcontra rfl
    rw [if_neg hcond2] at hp2
    constructor
    · rw [(pair_eq_split hp2).1, hcc1]
      simp [hcc2]
    · exact (pair_eq_split hp2).2
  · intro s cd cd2 t1 t2 W H hA hname
    have hp1 := processHandData_chord s (chordFrame cd t1 W H)
      { left := none, right := none } cd hA rfl rfl
    have hA1 : (processHandData s (chordFrame cd t1 W H)).state.isActive = true := by
      rw [(processHandData_preserves s _).1, hA]
    have hp2 := processHandData_chord
      (processHandData s (chordFrame cd t1 W H)).state
      (chordFrame cd2 t2 W H) { left := none, right := none } cd2 hA1 rfl rfl
    by_cases hcond : cd.name ≠ "Unknown" ∧ chordDiffers s.lastDetectedChord cd.name
    · rw [if_pos hcond] at hp1
      have hu1 := (pair_eq_split hp1).1
      have hcond2 : ¬ (cd2.name ≠ "Unknown" ∧
          chordDiffers (processHandData s
            (chordFrame cd t1 W H)).state.lastDetectedChord cd2.name) := by
        rintro ⟨-, hdiff⟩
        rw [hu1] at hdiff
        exact hdiff hname.symm
      rw [if_neg hcond2] at hp2
      exact (pair_eq_split hp2).2
    · rw [if_neg hcond] at hp1
      have hu1 := (pair_eq_split hp1).1
      have hcond2 : ¬ (cd2.name ≠ "Unknown" ∧
          chordDiffers (processHandData s
            (chordFrame cd t1 W H)).state.lastDetectedChord cd2.name) := by
        rintro ⟨hne2, hdiff⟩
        apply hcond
        rw [hname] at hne2 hdiff
        rw [hu1] at hdiff
        exact ⟨hne2, hdiff⟩
      rw [if_neg hcond2] at hp2
      exact (pair_eq_split hp2).2

/-- Witness for C4: from a fresh active instance, detecting "C Major" and then
"Unknown" keeps the current chord "C Major" and fires no notification on the
second frame. -/
theorem chord_cache_rule_witness :
    ((processHandData
        (processHandData (setup initialState)
          (chordFrame { name := "C Major", confidence := 0.7 } 0 0 0)).state
        (chordFrame { name := "Unknown", confidence := 0.3 } 16 0 0)).state.lastDetectedChord.map
      Chord.name = some "C Major" ∧
    (processHandData
        (processHandData (setup initialState)
          (chordFrame { name := "C Major", confidence := 0.7 } 0 0 0)).state
        (chordFrame { name := "Unknown", confidence := 0.3 } 16 0 0)).events.chordChanged =
      none) :=
  chord_cache_rule.2.1 (setup initialState) 0.7 0.3 0 16 0 0 rfl

end MotionAnalysis

/-- C5: with the fretting-role hand present and the three plane-angle-adjusted
fingertip-to-thumb distances numeric, `detectChordFormation` classifies by the
fixed decision table: index close with middle and ring far gives C Major at
confidence 0.7, index far with middle close and ring far gives G Major at 0.6,
index and middle far with ring close gives E Minor at 0.65, and every other
pattern gives Unknown at the low confidence 0.3. -/
theorem chord_decision_table (angle : ℝ) (h : HandTracking.Hand) (di dm dr : ℝ)
    (hi : HandTracking.calculateDistance angle
        (some (h.keypoints HandTracking.INDEX_TIP))
        (some (h.keypoints HandTracking.THUMB_TIP)) = some di)
    (hm : HandTracking.calculateDistance angle
        (some (h.keypoints HandTracking.MIDDLE_TIP))
        (some (h.keypoints HandTracking.THUMB_TIP)) = some dm)
    (hr : HandTracking.calculateDistance angle
        (some (h.keypoints HandTracking.RING_TIP))
        (some (h.keypoints HandTracking.THUMB_TIP)) = some dr) :
    (di < 50 ∧ 80 < dm ∧ 80 < dr →
      HandTracking.detectChordFormation angle (some h) =
        some { name := "C Major", confidence := 0.7 }) ∧
    (80 < di ∧ dm < 50 ∧ 80 < dr →
      HandTracking.detectChordFormation angle (some h) =
        some { name := "G Major", confidence := 0.6 }) ∧
    (80 < di ∧ 80 < dm ∧ dr < 50 →
      HandTracking.detectChordFormation angle (some h) =
        some { name := "E Minor", confidence := 0.65 }) ∧
    (¬(di < 50 ∧ 80 < dm ∧ 80 < dr) → ¬(80 < di ∧ dm < 50 ∧ 80 < dr) →
      ¬(80 < di ∧ 80 < dm ∧ dr < 50) →
      HandTracking.detectChordFormation angle (some h) =
        some { name := "Unknown", confidence := 0.3 }) := by
  have heq : HandTracking.detectChordFormation angle (some h) =
      some (if di < 50 ∧ 80 < dm ∧ 80 < dr then
              { name := "C Major", confidence := 0.7 }
            else if 80 < di ∧ dm < 50 ∧ 80 < dr then
              { name := "G Major", confidence := 0.6 }
            else if 80 < di ∧ 80 < dm ∧ dr < 50 then
              { name := "E Minor", confidence := 0.65 }
            else { name := "Unknown", confidence := 0.3 }) := by
    simp only [HandTracking.detectChordFormation, hi, hm, hr, jsLt_some_some]
  rw [heq]
  refine ⟨?_, ?_, ?_, ?_⟩
  · intro hpat
    rw [if_pos hpat]
  · rintro ⟨h1, h2, h3⟩
    rw [if_neg (by rintro ⟨a, -, -⟩; linarith), if_pos ⟨h1, h2, h3⟩]
  · rintro ⟨h1, h2, h3⟩
    rw [if_neg (by rintro ⟨a, -, -⟩; linarith),
      if_neg (by rintro ⟨-, a, -⟩; linarith), if_pos ⟨h1, h2, h3⟩]
  · intro n1 n2 n3
    rw [if_neg n1, if_neg n2, if_neg n3]

/-- A concrete fretting hand whose index tip is 5 px from the thumb tip and
whose middle and ring tips are 100 px from it. -/
def chordHandC : HandTracking.Hand :=
  { keypoints := fun n =>
      match n with
      | 4 => { x := some 0, y := some 0, z := some 0 }
      | 8 => { x := some 3, y := some 4, z := some 0 }
      | 12 => { x := some 60, y := some 80, z := some 0 }
      | 16 => { x := some 60, y := some (-80), z := some 0 }
      | _ => { x := some 0, y := some 0, z := some 0 }
    keypoints3D := none }

/-- Witness for C5: at plane angle 90 the concrete hand above (distances 5,
100, 100) classifies as C Major with confidence 0.7. -/
theorem chord_decision_table_witness :
    HandTracking.detectChordFormation 90 (some chordHandC) =
      some { name := "C Major", confidence := 0.7 } := by
  have ht : Real.tan (degreesToRadians ((90 : ℝ) - 90)) = 0 := by
    norm_num [degreesToRadians, Real.tan_zero]
  have hi : HandTracking.calculateDistance 90
      (some (chordHandC.keypoints HandTracking.INDEX_TIP))
      (some (chordHandC.keypoints HandTracking.THUMB_TIP)) = some 5 := by
    show HandTracking.calculateDistance 90
        (some { x := some 3, y := some 4, z := some 0 })
        (some { x := some 0, y := some 0, z := some 0 }) = some 5
    rw [calculateDistance_some, ht]
    rw [show ((0 : ℝ) - 3) * ((0 : ℝ) - 3) +
        ((0 + 0 * 0) - (4 + 3 * 0)) * ((0 + 0 * 0) - (4 + 3 * 0)) +
        ((0 : ℝ) - 0) * ((0 : ℝ) - 0) = 5 ^ 2 by norm_num]
    rw [Real.sqrt_sq (by norm_num : (0 : ℝ) ≤ 5)]
  have hm : HandTracking.calculateDistance 90
      (some (chordHandC.keypoints HandTracking.MIDDLE_TIP))
      (some (chordHandC.keypoints HandTracking.THUMB_TIP)) = some 100 := by
    show HandTracking.calculateDistance 90
        (some { x := some 60, y := some 80, z := some 0 })
        (some { x := some 0, y := some 0, z := some 0 }) = some 100
    rw [calculateDistance_some, ht]
    rw [show ((0 : ℝ) - 60) * ((0 : ℝ) - 60) +
        ((0 + 0 * 0) - (80 + 60 * 0)) * ((0 + 0 * 0) - (80 + 60 * 0)) +
        ((0 : ℝ) - 0) * ((0 : ℝ) - 0) = 100 ^ 2 by norm_num]
    rw [Real.sqrt_sq (by norm_num : (0 : ℝ) ≤ 100)]
  have hr : HandTracking.calculateDistance 90
      (some (chordHandC.keypoints HandTracking.RING_TIP))
      (some (chordHandC.keypoints HandTracking.THUMB_TIP)) = some 100 := by
    show HandTracking.calculateDistance 90
        (some { x := some 60, y := some (-80), z := some 0 })
        (some { x := some 0, y := some 0, z := some 0 }) = some 100
    rw [calculateDistance_some, ht]
    rw [show ((0 : ℝ) - 60) * ((0 : ℝ) - 60) +
        ((0 + 0 * 0) - (-80 + 60 * 0)) * ((0 + 0 * 0) - (-80 + 60 * 0)) +
        ((0 : ℝ) - 0) * ((0 : ℝ) - 0) = 100 ^ 2 by norm_num]
    rw [Real.sqrt_sq (by norm_num : (0 : ℝ) ≤ 100)]
  exact (chord_decision_table 90 chordHandC 5 100 100 hi hm hr).1
    ⟨by norm_num, by norm_num, by norm_num⟩

/-- C3: the fret position computed from the inter-hand distance `d` and the
frame diagonal `D` equals `round((1 - min(1, d / (0.7 * D))) * 12)` clamped
into `[0, 12]`; it never decreases when `d` decreases, maps `d ≥ 0.7 * D` to
fret 0 and `d = 0` to fret 12, and gives fret 3 for `d = 400`, `D = 800`. -/
theorem fret_position_formula (d D : ℝ) (hd : 0 ≤ d) (hD : 0 < D) :
    MotionAnalysis.fretPositionOfDistance d D =
      min 12 (max 0 (round ((1 - min 1 (d / (0.7 * D))) * 12))) ∧
    (0 ≤ MotionAnalysis.fretPositionOfDistance d D ∧
      MotionAnalysis.fretPositionOfDistance d D ≤ 12) ∧
    (∀ e : ℝ, 0 ≤ e → e ≤ d →
      MotionAnalysis.fretPositionOfDistance d D ≤
        MotionAnalysis.fretPositionOfDistance e D) ∧
    (0.7 * D ≤ d → MotionAnalysis.fretPositionOfDistance d D = 0) ∧
    MotionAnalysis.fretPositionOfDistance 0 D = 12 ∧
    MotionAnalysis.fretPositionOfDistance 400 800 = 3 := by
  have hc : (0 : ℝ) < D * 0.7 := mul_pos hD (by norm_num)
  refine ⟨?_, ⟨?_, ?_⟩, ?_, ?_, ?_, ?_⟩
  · simp only [MotionAnalysis.fretPositionOfDistance]
    rw [mul_comm D (0.7 : ℝ)]
  · exact le_min (by norm_num) (le_max_left 0 _)
  · exact min_le_left _ _
  · intro e he hed
    simp only [MotionAnalysis.fretPositionOfDistance]
    have hdiv : e / (D * 0.7) ≤ d / (D * 0.7) := by gcongr
    have hmin : min 1 (e / (D * 0.7)) ≤ min 1 (d / (D * 0.7)) :=
      min_le_min le_rfl hdiv
    have hround : round ((1 - min 1 (d / (D * 0.7))) * 12) ≤
        round ((1 - min 1 (e / (D * 0.7))) * 12) :=
      round_mono_of_le (by linarith)
    exact min_le_min le_rfl (max_le_max le_rfl hround)
  · intro hfar
    simp only [MotionAnalysis.fretPositionOfDistance]
    have h1 : min 1 (d / (D * 0.7)) = 1 :=
      min_eq_left ((le_div_iff hc).mpr (by linarith))
    rw [h1]
    norm_num
  · simp only [MotionAnalysis.fretPositionOfDistance]
    rw [zero_div, min_eq_right (by norm_num : (0 : ℝ) ≤ 1)]
    norm_num
  · simp only [MotionAnalysis.fretPositionOfDistance]
    have h1 : (400 : ℝ) / (800 * 0.7) = 5 / 7 := by norm_num
    rw [h1, min_eq_right (by norm_num : (5 : ℝ) / 7 ≤ 1)]
    have h2 : ((1 : ℝ) - 5 / 7) * 12 = 24 / 7 := by norm_num
    rw [h2, round_eq]
    have h3 : (24 : ℝ) / 7 + 1 / 2 = 55 / 14 := by norm_num
    rw [h3]
    have h4 : ⌊(55 : ℝ) / 14⌋ = 3 := by
      rw [Int.floor_eq_iff] <;> norm_num
    rw [h4]
    norm_num

/-- Witness for C3 at `d = 400`, `D = 800` (and the `d = 0` boundary). -/
theorem fret_position_formula_witness :
    MotionAnalysis.fretPositionOfDistance 0 800 = 12 ∧
    MotionAnalysis.fretPositionOfDistance 400 800 = 3 := by
  have h := fret_position_formula 400 800 (by norm_num) (by norm_num)
  exact ⟨h.2.2.2.2.1, h.2.2.2.2.2⟩

/-- Wrist positions used against C7. -/
def ptA : MotionAnalysis.Point := { x := 0, y := 0 }

def ptB : MotionAnalysis.Point := { x := 1, y := 0 }

/-- C7 counterexample: at plane angle 45 the inter-hand wrist distance that
the fret-position computation uses is the raw Euclidean distance 1 of the
smoothed wrists, while the plane-angle-adjusted distance of the same two
points differs from 1 — the transform is not applied to this distance. -/
theorem fret_distance_unadjusted_cex :
    MotionAnalysis.interHandDistance ptA ptB = 1 ∧
    SpecModel.adjustedDistance 45 ptA ptB ≠ 1 := by
  have ht : Real.tan (degreesToRadians ((45 : ℝ) - 90)) = -1 := by
    have harg : degreesToRadians ((45 : ℝ) - 90) = -(Real.pi / 4) := by
      unfold degreesToRadians
      ring
    rw [harg, Real.tan_neg, Real.tan_pi_div_four]
  constructor
  · simp only [MotionAnalysis.interHandDistance, ptA, ptB]
    norm_num [Real.sqrt_one]
  · simp only [SpecModel.adjustedDistance, ptA, ptB, ht]
    simp only [ne_eq, Real.sqrt_eq_one]
    norm_num

/-- C7 (amended): the shared utility `calculateDistance` does apply the
plane-angle transform to each point before the Euclidean distance — on
numeric planar points it agrees with the distance the spec prescribes, and at
the no-tilt angle 90 the transform is the identity — but the inter-hand wrist
distance from which the fret position is computed is the raw Euclidean
distance of the smoothed wrist positions, with no plane-angle transform. -/
theorem plane_transform_only_in_calculateDistance :
    (∀ angle px py qx qy : ℝ,
        HandTracking.calculateDistance angle
            (some { x := some px, y := some py, z := some 0 })
            (some { x := some qx, y := some qy, z := some 0 }) =
          some (SpecModel.adjustedDistance angle
            { x := px, y := py } { x := qx, y := qy })) ∧
    (∀ p q : MotionAnalysis.Point,
        MotionAnalysis.interHandDistance p q =
          Real.sqrt ((p.x - q.x) ^ 2 + (p.y - q.y) ^ 2)) ∧
    (∀ p q : MotionAnalysis.Point,
        SpecModel.adjustedDistance 90 p q = MotionAnalysis.interHandDistance p q) := by
  refine ⟨?_, ?_, ?_⟩
  · intro angle px py qx qy
    rw [calculateDistance_some]
    simp only [SpecModel.adjustedDistance]
    exact congrArg some (congrArg Real.sqrt (by ring))
  · intro p q
    rfl
  · intro p q
    have ht : Real.tan (degreesToRadians ((90 : ℝ) - 90)) = 0 := by
      norm_num [degreesToRadians, Real.tan_zero]
    simp only [SpecModel.adjustedDistance, MotionAnalysis.interHandDistance, ht]
    exact congrArg Real.sqrt (by ring)

/-- The point with a NaN x-coordinate used against C9. -/
def nanXPt : HandTracking.Pt := { x := none, y := some 0, z := some 0 }

/-- The origin landmark point. -/
def originPt : HandTracking.Pt := { x := some 0, y := some 0, z := some 0 }

/-- C9 counterexample: a NaN x-coordinate is not detected by
`calculateDistance`; it propagates to a NaN result instead of the neutral
zero the claim promises. -/
theorem calculateDistance_nan_cex :
    HandTracking.calculateDistance 90 (some nanXPt) (some originPt) = none ∧
    (none : JSNum) ≠ some (0 : ℝ) := by
  constructor
  · simp [HandTracking.calculateDistance, nanXPt, originPt, HandTracking.zOrZero]
  · simp

/-- C9 (amended): `calculateDistance` is a pure function that returns the
neutral 0 when either point is missing, but NaN coordinates are not detected:
a NaN x-coordinate propagates to a NaN result (it neither throws nor yields
0). -/
theorem calculateDistance_missing_and_nan :
    (∀ (angle : ℝ) (p : Option HandTracking.Pt),
        HandTracking.calculateDistance angle none p = some 0 ∧
        HandTracking.calculateDistance angle p none = some 0) ∧
    (∀ (angle : ℝ) (p q : HandTracking.Pt), p.x = none →
        HandTracking.calculateDistance angle (some p) (some q) = none) := by
  constructor
  · intro angle p
    constructor
    · cases p <;> rfl
    · cases p <;> rfl
  · intro angle p q hx
    simp [HandTracking.calculateDistance, hx]

/-- Witness for the amended C9: a missing point gives distance 0, a NaN
x-coordinate gives a NaN distance. -/
theorem calculateDistance_missing_and_nan_witness :
    HandTracking.calculateDistance 90 none (some originPt) = some 0 ∧
    HandTracking.calculateDistance 90 (some nanXPt) (some originPt) = none :=
  ⟨(calculateDistance_missing_and_nan.1 90 (some originPt)).1,
   calculateDistance_missing_and_nan.2 90 nanXPt originPt rfl⟩

/-- The collinear 3D landmark array used against C10: wrist, index base and
pinky base all on the x-axis. -/
def collinearLandmarks : ℕ → Option HandTracking.Pt3 := fun n =>
  match n with
  | 0 => some { x := 0, y := 0, z := 0 }
  | 5 => some { x := 1, y := 0, z := 0 }
  | 17 => some { x := 2, y := 0, z := 0 }
  | _ => none

/-- A hand whose 3D landmarks are collinear. -/
def collinearHand : HandTracking.Hand :=
  { keypoints := fun _ => originPt
    keypoints3D := some collinearLandmarks }

/-- C10 counterexample: for a hand with collinear wrist, index-base and
pinky-base landmarks the returned orientation has a NaN pitch — the code
divides the zero palm normal by its zero magnitude instead of returning the
neutral orientation. -/
theorem orientation_collinear_cex :
    (HandTracking.calculateHandOrientation 90 (some collinearHand)).pitch = none ∧
    HandTracking.calculateHandOrientation 90 (some collinearHand) ≠
      HandTracking.neutralOrientation := by
  have hpitch :
      (HandTracking.calculateHandOrientation 90 (some collinearHand)).pitch = none := by
    simp only [HandTracking.calculateHandOrientation, collinearHand, collinearLandmarks]
    norm_num [HandTracking.palmNormal, degreesToRadians, Real.tan_zero,
      HandTracking.WRIST, HandTracking.INDEX_BASE, HandTracking.PINKY_BASE]
  refine ⟨hpitch, fun he => ?_⟩
  rw [he] at hpitch
  simp [HandTracking.neutralOrientation] at hpitch

/-- C10 (amended): when the plane-angle-adjusted wrist, index-base and
pinky-base landmarks have a zero palm normal (collinear landmarks), the code
divides the zero normal by its zero magnitude: pitch and roll come out NaN
rather than the neutral zero orientation. -/
theorem orientation_zero_normal_nan (angle : ℝ) (h : HandTracking.Hand)
    (lm : ℕ → Option HandTracking.Pt3) (w i p : HandTracking.Pt3)
    (hlm : h.keypoints3D = some lm)
    (hw : lm HandTracking.WRIST = some w)
    (hi : lm HandTracking.INDEX_BASE = some i)
    (hp : lm HandTracking.PINKY_BASE = some p)
    (hn : HandTracking.palmNormal (Real.tan (degreesToRadians (angle - 90))) w i p =
      { x := 0, y := 0, z := 0 }) :
    (HandTracking.calculateHandOrientation angle (some h)).pitch = none ∧
    (HandTracking.calculateHandOrientation angle (some h)).roll = none := by
  simp only [HandTracking.calculateHandOrientation, hlm, hw, hi, hp, hn]
  norm_num [Real.sqrt_zero]

/-- Witness for the amended C10 at the concrete collinear hand. -/
theorem orientation_zero_normal_nan_witness :
    (HandTracking.calculateHandOrientation 90 (some collinearHand)).pitch = none ∧
    (HandTracking.calculateHandOrientation 90 (some collinearHand)).roll = none := by
  refine orientation_zero_normal_nan 90 collinearHand collinearLandmarks
    { x := 0, y := 0, z := 0 } { x := 1, y := 0, z := 0 } { x := 2, y := 0, z := 0 }
    rfl rfl rfl rfl ?_
  norm_num [HandTracking.palmNormal, degreesToRadians, Real.tan_zero]

/-- C8: if either the current-frame or the previous-frame strumming hand is
missing (so its wrist landmark is unavailable), `detectStrummingMotion`
returns no signal, whatever the other frame holds. -/
theorem strum_missing_hand_none :
    (∀ prev : Option HandTracking.Hand,
        HandTracking.detectStrummingMotion none prev = none) ∧
    (∀ cur : Option HandTracking.Hand,
        HandTracking.detectStrummingMotion cur none = none) := by
  constructor
  · intro prev; cases prev <;> rfl
  · intro cur; cases cur <;> rfl

end

end AirGuitar
